import Mathlib

/-!
Verification of the `OpenVpn` process supervisor (src/lib/OpenVpn.ts).

The class `OpenVpn` holds a `status` field and an event emitter.  Its methods
mutate the status, emit `status`/`log` events and write to the child process's
stdin.  We embed each method as a pure function from the relevant part of the
instance state to a pair of the new stored status and the ordered list of
observable actions (`Act`) the method performs: field mutations, event
emissions, and stdin writes.  External effects (process spawning, signals,
timers) are modelled by explicit parameters where a claim needs them.
-/

namespace OpenVpn

/-- The `Status` union type exported by OpenVpn.ts. -/
inductive Status where
  | connecting
  | connected
  | disconnecting
  | disconnected
  | reconnecting
  | stopped
  | error
  | auth
  | auth_username
  | auth_password
  | auth_success
  | auth_failed
deriving DecidableEq, Repr, Fintype

/-- The argument of the private method `handleAuth` (the TypeScript literal
union `'username' | 'password'`). -/
inductive AuthKind where
  | username
  | password
deriving DecidableEq, Repr

/-- One observable action of a method on an `OpenVpn` instance:
a mutation of the stored `status` field, an emission of a `status` event
with its payload, an emission of a `log` event, or a write to the child
process's stdin. -/
inductive Act where
  | set (s : Status)
  | emitStatus (s : Status)
  | log (line : String)
  | write (data : String)
deriving DecidableEq, Repr

/-- Whether `pat` occurs at the start of `s` (character lists). -/
def listStartsWith : List Char → List Char → Bool
  | _, [] => true
  | [], _ :: _ => false
  | a :: as, b :: bs => a = b && listStartsWith as bs

/-- Whether `pat` occurs as a contiguous run somewhere in `s`
(character lists). -/
def listHasSub : List Char → List Char → Bool
  | [], pat => pat.isEmpty
  | s@(_ :: rest), pat => listStartsWith s pat || listHasSub rest pat

/-- JavaScript `String.prototype.includes`: substring containment,
case-sensitive. -/
def includes (s pat : String) : Bool := listHasSub s.toList pat.toList

/-- JavaScript template interpolation of a possibly-undefined string:
`undefined` renders as the literal text "undefined". -/
def jsStr : Option String → String
  | some s => s
  | none => "undefined"

/-- JavaScript truthiness of an optional string field (`if (this.username)`):
false exactly for `undefined` and the empty string. -/
def truthy : Option String → Bool
  | some s => decide (s ≠ "")
  | none => false

/-- The constructor options of the `OpenVpn` class that the supervised
behaviour depends on. -/
structure Options where
  configPath : String
  username : Option String
  password : Option String
  authPath : Option String
  useAuthFile : Bool
  customFlags : List String

/-- The pattern strings of `handleLog`, in source order. -/
def pushPat : String := "PUSH: Received control message"

/-- Pattern of the first `if` of `handleLog` (second disjunct). -/
def initPat : String := "Initialization Sequence Completed"

/-- Pattern of the second `if` of `handleLog`. -/
def exitingPat : String := "Exiting"

/-- Pattern of the third `if` of `handleLog`. -/
def userPat : String := "Enter Auth Username:"

/-- Pattern of the fourth `if` of `handleLog`. -/
def passPat : String := "Enter Auth Password:"

/-- First pattern of the fifth `if` of `handleLog`. -/
def verifPat : String := "Verification Failed"

/-- Second pattern of the fifth `if` of `handleLog`. -/
def afPat : String := "AUTH_FAILED"

/-- Pattern of the sixth `if` of `handleLog`. -/
def peerPat : String := "Peer Connection Initiated"

/-- Pattern of the seventh `if` of `handleLog`. -/
def sigusr1Pat : String := "SIGUSR1[soft,ping-restart] received, process restarting"

/-- Pattern of the eighth `if` of `handleLog`. -/
def arpPat : String := "Successful ARP Flush on interface"

/-- `handleAuth(type)` (OpenVpn.ts, part_003 lines 575-592): if the
corresponding credential is truthy, write it followed by a newline to the
child's stdin; otherwise set the status to `auth_failed` and emit it.
The two `if (type === ...)` statements of the source are checked in
sequence, exactly as written. -/
def handleAuth (cfg : Options) (s : Status) (k : AuthKind) : Status × List Act :=
  let r1 :=
    if k = AuthKind.username then
      if truthy cfg.username then
        (s, [Act.write (jsStr cfg.username ++ "\n")])
      else
        (Status.auth_failed, [Act.set Status.auth_failed, Act.emitStatus Status.auth_failed])
    else (s, ([] : List Act))
  if k = AuthKind.password then
    if truthy cfg.password then
      (r1.1, r1.2 ++ [Act.write (jsStr cfg.password ++ "\n")])
    else
      (Status.auth_failed, r1.2 ++ [Act.set Status.auth_failed, Act.emitStatus Status.auth_failed])
  else r1

/-- `handleLog(line)` (OpenVpn.ts, part_003 lines 514-560): emit the line on
the `log` channel, then run the eight independent `if` statements in source
order; each one whose substring test (and, for the first and last, status
guard) holds assigns the status, emits it, and for the two auth prompts
invokes `handleAuth`. -/
def handleLog (cfg : Options) (s0 : Status) (line : String) : Status × List Act :=
  let t0 : Status × List Act := (s0, [Act.log line])
  let t1 :=
    if (includes line pushPat || includes line initPat) && decide (t0.1 ≠ Status.connected) then
      (Status.connected, t0.2 ++ [Act.set Status.connected, Act.emitStatus Status.connected])
    else t0
  let t2 :=
    if includes line exitingPat then
      (Status.disconnected, t1.2 ++ [Act.set Status.disconnected, Act.emitStatus Status.disconnected])
    else t1
  let t3 :=
    if includes line userPat then
      let r := handleAuth cfg Status.auth_username AuthKind.username
      (r.1, (t2.2 ++ [Act.set Status.auth_username, Act.emitStatus Status.auth_username]) ++ r.2)
    else t2
  let t4 :=
    if includes line passPat then
      let r := handleAuth cfg Status.auth_password AuthKind.password
      (r.1, (t3.2 ++ [Act.set Status.auth_password, Act.emitStatus Status.auth_password]) ++ r.2)
    else t3
  let t5 :=
    if includes line verifPat || includes line afPat then
      (Status.auth_failed, t4.2 ++ [Act.set Status.auth_failed, Act.emitStatus Status.auth_failed])
    else t4
  let t6 :=
    if includes line peerPat then
      (Status.auth_success, t5.2 ++ [Act.set Status.auth_success, Act.emitStatus Status.auth_success])
    else t5
  let t7 :=
    if includes line sigusr1Pat then
      (Status.reconnecting, t6.2 ++ [Act.set Status.reconnecting, Act.emitStatus Status.reconnecting])
    else t6
  if includes line arpPat && decide (t7.1 = Status.reconnecting) then
    (Status.connected, t7.2 ++ [Act.set Status.connected, Act.emitStatus Status.connected])
  else t7

/-- JavaScript `data.split(/\r?\n/)`: cut the character list at every
`"\r\n"` or `"\n"`; a lone carriage return is not a separator. -/
def splitLines : List Char → List (List Char)
  | [] => [[]]
  | '\r' :: '\n' :: rest => [] :: splitLines rest
  | '\n' :: rest => [] :: splitLines rest
  | c :: rest =>
    match splitLines rest with
    | [] => [[c]]
    | l :: ls => (c :: l) :: ls

/-- The whitespace characters removed by JavaScript `String.prototype.trim`
that can occur in process output. -/
def jsWhitespace (c : Char) : Bool :=
  c = ' ' || c = '\t' || c = '\n' || c = '\r' || c = '\x0b' || c = '\x0c'

/-- `line.trim()` is truthy (nonempty) exactly when the line has a
non-whitespace character. -/
def trimNonempty (l : List Char) : Bool := l.any (fun c => !jsWhitespace c)

/-- `handleChunk(chunk)` (OpenVpn.ts, part_003 lines 562-573): split the raw
chunk on `\r\n`/`\n` and run `handleLog` on every segment whose trimmed text
is nonempty, threading the status through and concatenating the actions. -/
def handleChunk (cfg : Options) (s : Status) (chunk : String) : Status × List Act :=
  (splitLines chunk.toList).foldl
    (fun st l =>
      if trimNonempty l then
        let r := handleLog cfg st.1 (String.mk l)
        (r.1, st.2 ++ r.2)
      else st)
    (s, ([] : List Act))

/-- Whether a raw chunk ends with a line terminator (`\r\n` or `\n`; both end
in `\n`). -/
def endsWithTerm (s : String) : Bool :=
  match s.toList.reverse with
  | '\n' :: _ => true
  | _ => false

/-- The `bootstrap()` prologue (part_003 lines 302-304): set status
`connecting` and emit it. -/
def bootstrapStep : Status × List Act :=
  (Status.connecting, [Act.set Status.connecting, Act.emitStatus Status.connecting])

/-- The `close` handler installed by `connect()` (part_003 lines 347-350):
set status `disconnected` and emit it. -/
def onCloseStep : Status × List Act :=
  (Status.disconnected, [Act.set Status.disconnected, Act.emitStatus Status.disconnected])

/-- The `error` handler installed by `connect()` (part_003 lines 352-356):
set status `error`, emit it, and log the error message. -/
def onErrorStep (msg : String) : Status × List Act :=
  (Status.error, [Act.set Status.error, Act.emitStatus Status.error,
    Act.log ("Error: " ++ msg)])

/-- First guarded block of `disconnect()` (part_003 lines 389-396): if the
status is none of `disconnected`/`stopped`/`disconnecting`, set it to
`disconnecting` and emit. -/
def disconnectSetDisconnecting (s : Status) : Status × List Act :=
  if decide (s ≠ Status.disconnected) && decide (s ≠ Status.stopped)
      && decide (s ≠ Status.disconnecting) then
    (Status.disconnecting, [Act.set Status.disconnecting, Act.emitStatus Status.disconnecting])
  else (s, [])

/-- Final guarded block of `disconnect()` (part_003 lines 408-415): if the
status is none of `disconnected`/`stopped`/`disconnecting`, set it to
`disconnected` and emit. -/
def disconnectSetDisconnected (s : Status) : Status × List Act :=
  if decide (s ≠ Status.disconnected) && decide (s ≠ Status.stopped)
      && decide (s ≠ Status.disconnecting) then
    (Status.disconnected, [Act.set Status.disconnected, Act.emitStatus Status.disconnected])
  else (s, [])

/-- `disconnect()` (part_003 lines 387-423) restricted to its effect on the
stored status when no event handler runs in between (the signal, the
terminator call and the sleeps do not touch the status field): the first
guarded block followed by the final guarded block. -/
def disconnect (s : Status) : Status × List Act :=
  let t1 := disconnectSetDisconnecting s
  let t2 := disconnectSetDisconnected t1.1
  (t2.1, t1.2 ++ t2.2)

/-- One action of the promise executor of `connect()`. -/
inductive ConnAct where
  | resolve
  | reject (msg : String)
  | invokeDisconnect
  | removeStatusListener
deriving DecidableEq, Repr

/-- Render a status the way the TypeScript string literals do. -/
def Status.text : Status → String
  | Status.connecting => "connecting"
  | Status.connected => "connected"
  | Status.disconnecting => "disconnecting"
  | Status.disconnected => "disconnected"
  | Status.reconnecting => "reconnecting"
  | Status.stopped => "stopped"
  | Status.error => "error"
  | Status.auth => "auth"
  | Status.auth_username => "auth_username"
  | Status.auth_password => "auth_password"
  | Status.auth_success => "auth_success"
  | Status.auth_failed => "auth_failed"

/-- The `statusListener` installed by `connect()` (part_003 lines 359-367):
on `connected` detach and resolve; on `error` or `auth_failed` detach and
reject; otherwise do nothing. -/
def statusListener (s : Status) : List ConnAct :=
  if s = Status.connected then
    [ConnAct.removeStatusListener, ConnAct.resolve]
  else if s = Status.error ∨ s = Status.auth_failed then
    [ConnAct.removeStatusListener, ConnAct.reject ("Connection failed: " ++ s.text)]
  else []

/-- The 30-second timeout callback of `connect()` (part_003 lines 372-383):
detach the status listener, then reject with a timeout error and invoke
`disconnect()` only when the status at the deadline is none of
`connected`/`disconnected`/`reconnecting`/`disconnecting`. -/
def connectTimeoutStep (s : Status) : List ConnAct :=
  ConnAct.removeStatusListener ::
    (if decide (s ≠ Status.connected) && decide (s ≠ Status.disconnected)
        && decide (s ≠ Status.reconnecting) && decide (s ≠ Status.disconnecting) then
      [ConnAct.reject ("Connection timeout"), ConnAct.invokeDisconnect]
    else [])

/-- Outcome of a call to `killProcesses` as seen by the caller: the promise
either fulfills or rejects with a propagated termination error. -/
inductive KillOutcome where
  | ok
  | raised
deriving DecidableEq, Repr

/-- Environment describing the behaviour of the external collaborators during
one `killProcesses(graceful, timeoutMs)` call: the process lists returned by
the successive `getProcesses()` queries (the initial one, the ones made by
the polling loop, the one opening the force-kill `try`, and the one inside
its `catch`), and whether each of the three `fkill` phases throws (the
graceful `force: false` loop, the per-process `force: true` loop, and the
final batched `force: true` call). -/
structure KillEnv where
  q1 : List Nat
  qPoll : Nat → List Nat
  qForce : List Nat
  qCatch : List Nat
  gracefulThrows : Bool
  forceThrows : Bool
  batchThrows : Bool

/-- The graceful polling loop of `killProcesses` (part_003 lines 481-488):
up to `rounds` re-queries at 500 ms intervals, returning true when some
re-query finds no surviving process before the timeout elapses. -/
def pollUntilEmpty (env : KillEnv) : Nat → Nat → Bool
  | _, 0 => false
  | k, n + 1 => if env.qPoll k = [] then true else pollUntilEmpty env (k + 1) n

/-- `killProcesses(graceful, timeoutMs)` (part_003 lines 466-512) with its
external calls resolved by `env`; `rounds` is the number of poll iterations
the `timeoutMs` budget allows.  Returns early when no process matches; the
graceful phase runs inside a `try` whose failures fall through to the force
phase; the per-process force-kill loop runs inside a `try` whose `catch`
re-queries and issues one batched force kill — and that batched call is not
itself guarded, so its failure rejects the promise. -/
def killProcesses (env : KillEnv) (graceful : Bool) (rounds : Nat) : KillOutcome :=
  if env.q1 = [] then KillOutcome.ok
  else
    let gracefulReturned :=
      if graceful then
        if env.gracefulThrows then false
        else pollUntilEmpty env 0 rounds
      else false
    if gracefulReturned then KillOutcome.ok
    else if env.qForce = [] then KillOutcome.ok
    else if env.forceThrows then
      if env.qCatch = [] then KillOutcome.ok
      else if env.batchThrows then KillOutcome.raised
      else KillOutcome.ok
    else KillOutcome.ok

/-- Content of the credential file written by `createFromConfig` when
`useAuthFile` is set (part_003 lines 196-202): the template
`${options.username}:${options.password}`. -/
def createFromConfigAuthContent (username password : Option String) : String :=
  jsStr username ++ ":" ++ jsStr password

/-- Content of the credential file written at connect time by
`createAuthFile` (part_003 lines 217-229): the template
`${this.username}\n${this.password}`. -/
def createAuthFileContent (username password : Option String) : String :=
  jsStr username ++ "\n" ++ jsStr password

/-- One table entry of the ordered pattern-to-transition table: the substring
test, an optional status guard, the resulting status, and the optional
request to the auth responder. -/
structure TableEntry where
  hit : String → Bool
  grd : Option (Status → Bool)
  target : Status
  fx : Option AuthKind

/-- The pattern-to-transition table, in the order of the `if` statements of
`handleLog`. -/
def patternTable : List TableEntry :=
  [⟨fun l => includes l pushPat || includes l initPat,
    some (fun s => decide (s ≠ Status.connected)), Status.connected, none⟩,
   ⟨fun l => includes l exitingPat, none, Status.disconnected, none⟩,
   ⟨fun l => includes l userPat, none, Status.auth_username, some AuthKind.username⟩,
   ⟨fun l => includes l passPat, none, Status.auth_password, some AuthKind.password⟩,
   ⟨fun l => includes l verifPat || includes l afPat, none, Status.auth_failed, none⟩,
   ⟨fun l => includes l peerPat, none, Status.auth_success, none⟩,
   ⟨fun l => includes l sigusr1Pat, none, Status.reconnecting, none⟩,
   ⟨fun l => includes l arpPat,
    some (fun s => decide (s = Status.reconnecting)), Status.connected, none⟩]

/-- Apply one table entry to the running status and action list: when the
line contains the entry's substring and the guard (if any) holds of the
current status, perform the entry's transition, emit it, and run the attached
auth request if any; otherwise leave the state unchanged. -/
def applyEntry (cfg : Options) (line : String) (st : Status × List Act)
    (e : TableEntry) : Status × List Act :=
  if (match e.grd with
      | none => e.hit line
      | some g => e.hit line && g st.1) then
    match e.fx with
    | none => (e.target, st.2 ++ [Act.set e.target, Act.emitStatus e.target])
    | some k =>
      let r := handleAuth cfg e.target k
      (r.1, (st.2 ++ [Act.set e.target, Act.emitStatus e.target]) ++ r.2)
  else st

/-- The table-driven classifier: emit the line on the `log` channel, then
apply every entry of `patternTable` top to bottom. -/
def classifySeq (cfg : Options) (s : Status) (line : String) : Status × List Act :=
  patternTable.foldl (applyEntry cfg line) (s, [Act.log line])

/-- The classifier restated from the spec's words for the chunk splitter:
split on line terminators, keep exactly the segments whose trimmed text is
nonempty, and classify each of those segments in order. -/
def classifyChunkSpec (cfg : Options) (s : Status) (chunk : String) : Status × List Act :=
  ((splitLines chunk.toList).filter trimNonempty).foldl
    (fun st l =>
      let r := handleLog cfg st.1 (String.mk l)
      (r.1, st.2 ++ r.2))
    (s, ([] : List Act))

/-- The payloads of the `status` events in an action list, in order. -/
def statusEvents : List Act → List Status
  | [] => []
  | Act.emitStatus s :: rest => s :: statusEvents rest
  | _ :: rest => statusEvents rest

/-- Checker for the emission-consistency invariant.  `emitConsistent s p acts`
walks the action list with `s` the stored status and `p` the value of a
status mutation still awaiting its emission: every `set` must be immediately
followed by a `status` emission of the same value, and every `status`
emission's payload must equal the stored status at that moment. -/
def emitConsistent : Status → Option Status → List Act → Bool
  | _, none, [] => true
  | _, some _, [] => false
  | s, none, Act.set x :: rest => emitConsistent s (some x) rest
  | s, none, Act.emitStatus y :: rest => decide (y = s) && emitConsistent s none rest
  | s, none, _ :: rest => emitConsistent s none rest
  | _, some x, Act.emitStatus y :: rest => decide (y = x) && emitConsistent x none rest
  | _, some _, _ :: _ => false

/-- The stored status field after executing an action list from status `s`. -/
def runStatus : Status → List Act → Status
  | s, [] => s
  | _, Act.set x :: rest => runStatus x rest
  | s, _ :: rest => runStatus s rest

/-- A concrete instance configuration used by the witnesses:
`new OpenVpn({ configPath, username: "alice", password: "secret", useAuthFile: true })`. -/
def sampleOptions : Options :=
  ⟨"client.ovpn", some ("alice"), some ("secret"), none, true, []⟩

theorem runStatus_nil (s : Status) : runStatus s [] = s := rfl

theorem runStatus_set (s x : Status) (rest : List Act) :
    runStatus s (Act.set x :: rest) = runStatus x rest := rfl

theorem runStatus_emit (s y : Status) (rest : List Act) :
    runStatus s (Act.emitStatus y :: rest) = runStatus s rest := rfl

theorem runStatus_append (a : List Act) : ∀ (b : List Act) (s : Status),
    runStatus s (a ++ b) = runStatus (runStatus s a) b := by
  induction a with
  | nil => intro b s; rfl
  | cons c rest ih => intro b s; cases c <;> simp [runStatus, ih]

theorem emitConsistent_append (a : List Act) : ∀ (s : Status) (p : Option Status) (b : List Act),
    emitConsistent s p a = true →
    emitConsistent (runStatus (p.getD s) a) none b = true →
    emitConsistent s p (a ++ b) = true := by
  induction a with
  | nil =>
    intro s p b ha hb
    cases p with
    | none => simpa [runStatus] using hb
    | some x => simp [emitConsistent] at ha
  | cons c rest ih =>
    intro s p b ha hb
    cases p with
    | none =>
      cases c with
      | set x =>
        simp only [emitConsistent, runStatus] at ha hb ⊢
        exact ih s (some x) b ha hb
      | emitStatus y =>
        simp only [emitConsistent, runStatus, Bool.and_eq_true] at ha hb ⊢
        exact ⟨ha.1, ih s none b ha.2 hb⟩
      | log l =>
        simp only [emitConsistent, runStatus] at ha hb ⊢
        exact ih s none b ha hb
      | write d =>
        simp only [emitConsistent, runStatus] at ha hb ⊢
        exact ih s none b ha hb
    | some x =>
      cases c with
      | set y => simp [emitConsistent] at ha
      | emitStatus y =>
        simp only [emitConsistent, runStatus, Bool.and_eq_true] at ha hb ⊢
        exact ⟨ha.1, ih x none b ha.2 hb⟩
      | log l => simp [emitConsistent] at ha
      | write d => simp [emitConsistent] at ha

theorem handleAuth_consistent (cfg : Options) (st : Status) (k : AuthKind) :
    emitConsistent st none (handleAuth cfg st k).2 = true ∧
    runStatus st (handleAuth cfg st k).2 = (handleAuth cfg st k).1 := by
  unfold handleAuth
  cases k <;> dsimp only <;> split_ifs <;> simp [emitConsistent, runStatus]

theorem applyEntry_preserves (cfg : Options) (line : String) (e : TableEntry)
    (st : Status × List Act) (s0 : Status)
    (h1 : emitConsistent s0 none st.2 = true) (h2 : runStatus s0 st.2 = st.1) :
    emitConsistent s0 none (applyEntry cfg line st e).2 = true ∧
    runStatus s0 (applyEntry cfg line st e).2 = (applyEntry cfg line st e).1 := by
  unfold applyEntry
  split_ifs with hc
  · rcases e with ⟨hit, grd, target, fx⟩
    cases fx with
    | none =>
      refine ⟨emitConsistent_append st.2 s0 none _ h1 ?_, ?_⟩
      · simp [h2, emitConsistent]
      · simp [runStatus_append, h2, runStatus]
    | some k =>
      have hh := handleAuth_consistent cfg target k
      constructor
      · refine emitConsistent_append _ s0 none _ ?_ ?_
        · refine emitConsistent_append st.2 s0 none _ h1 ?_
          simp [h2, emitConsistent]
        · have hx : runStatus s0 (st.2 ++ [Act.set target, Act.emitStatus target]) = target := by
            simp [runStatus_append, h2, runStatus]
          simpa [hx] using hh.1
      · simp only [runStatus_append, runStatus_set, runStatus_emit, runStatus_nil]
        exact hh.2
  · exact ⟨h1, h2⟩

theorem foldl_preserves (cfg : Options) (line : String) :
    ∀ (l : List TableEntry) (st : Status × List Act) (s0 : Status),
      emitConsistent s0 none st.2 = true → runStatus s0 st.2 = st.1 →
      emitConsistent s0 none (l.foldl (applyEntry cfg line) st).2 = true ∧
      runStatus s0 (l.foldl (applyEntry cfg line) st).2 = (l.foldl (applyEntry cfg line) st).1 := by
  intro l
  induction l with
  | nil => intro st s0 h1 h2; exact ⟨h1, h2⟩
  | cons e rest ih =>
    intro st s0 h1 h2
    have h := applyEntry_preserves cfg line e st s0 h1 h2
    exact ih (applyEntry cfg line st e) s0 h.1 h.2

theorem foldlGuard_eq_foldl_filter {α β : Type} (p : α → Bool) (f : β → α → β) :
    ∀ (l : List α) (b : β),
      l.foldl (fun st x => if p x then f st x else st) b = (l.filter p).foldl f b := by
  intro l
  induction l with
  | nil => intro b; rfl
  | cons a l ih => intro b; cases hpa : p a <;> simp [List.filter_cons, hpa, ih]

/-- Claim C1, counterexample: the line
"PUSH: Received control message, Exiting" contains both the first table
entry's substring and the second one's; from status `stopped` the classifier
performs BOTH transitions — it emits `connected` and then `disconnected`,
and the final status is that of the LATER entry — contradicting "yields at
most one transition ... later matching entries in the same line produce no
additional status change or emission". -/
theorem handleLog_later_match_also_fires :
    includes ("PUSH: Received control message, Exiting") pushPat = true ∧
    includes ("PUSH: Received control message, Exiting") exitingPat = true ∧
    statusEvents (handleLog sampleOptions Status.stopped
        ("PUSH: Received control message, Exiting")).2
      = [Status.connected, Status.disconnected] ∧
    (handleLog sampleOptions Status.stopped
        ("PUSH: Received control message, Exiting")).1
      = Status.disconnected := by decide

/-- Claim C1, amended: for every log line, the classifier applies the
pattern-to-transition table top to bottom and applies EVERY entry whose
substring the line contains (subject to the entry's status guard), each
matching entry performing its own status change and emission in table
order; `handleLog` coincides with the fold of the ordered table. -/
theorem handleLog_eq_classifySeq (cfg : Options) (s : Status) (line : String) :
    handleLog cfg s line = classifySeq cfg s line := rfl

/-- Claim C2: evaluation of `disconnect()` at the failing input.  The final
guarded block of `disconnect` excludes `disconnecting` — the very status the
first block just set — so the function's own body can never set
`disconnected`: starting from `error` (e.g. after a spawn failure, when no
`close` event will ever fire) disconnect ends at `disconnecting`, and the
only starting status from which it ends at `disconnected` is `disconnected`
itself.  The claim (and spec step 5) say it must end at `disconnected`. -/
theorem disconnect_cannot_reach_disconnected :
    (disconnect Status.error).1 = Status.disconnecting ∧
    (disconnect Status.connected).1 = Status.disconnecting ∧
    (disconnect Status.stopped).1 = Status.stopped ∧
    ∀ s : Status, ((disconnect s).1 = Status.disconnected ↔ s = Status.disconnected) := by
  decide

/-- Claim C3, counterexample: `reconnecting` is none of
`connected`/`error`/`auth_failed`, so by the claim the 30-second deadline
callback should reject with a timeout error and invoke `disconnect()`; but
the code's guard also exempts `reconnecting` (and `disconnected` and
`disconnecting`), so the callback only detaches the listener and the
`connect()` promise is left pending. -/
theorem connectTimeout_skips_reconnecting :
    Status.reconnecting ≠ Status.connected ∧
    Status.reconnecting ≠ Status.error ∧
    Status.reconnecting ≠ Status.auth_failed ∧
    connectTimeoutStep Status.reconnecting = [ConnAct.removeStatusListener] := by decide

/-- Claim C3, amended: at the 30-second deadline the timeout callback rejects
with a timeout error and additionally invokes `disconnect()` exactly when the
session status at the deadline is none of
`connected`/`disconnected`/`reconnecting`/`disconnecting`; for `disconnected`,
`reconnecting` and `disconnecting` it does neither. -/
theorem connectTimeout_rejects_iff (s : Status) :
    (ConnAct.reject ("Connection timeout") ∈ connectTimeoutStep s ∧
     ConnAct.invokeDisconnect ∈ connectTimeoutStep s) ↔
    (s ≠ Status.connected ∧ s ≠ Status.disconnected ∧ s ≠ Status.reconnecting ∧
     s ≠ Status.disconnecting) := by
  revert s; decide

/-- Claim C4, counterexample: with one matching process throughout,
`graceful = false`, a per-process force kill that throws and a batched
force-kill retry that also throws, `killProcesses` rejects — the batched
retry inside the `catch` block is not itself guarded, so its failure
propagates, contradicting "never raises". -/
theorem killProcesses_batch_failure_raises :
    killProcesses ⟨[1], fun _ => [1], [1], [1], false, true, true⟩ false 0
      = KillOutcome.raised := by decide

/-- Claim C4, amended: `killProcesses` swallows failures of the graceful
signal phase and of the per-process force-kill loop, and returns normally in
every case except exactly one: when processes match initially, the graceful
phase (if requested) fails to clear them, the per-process force kill throws,
the re-query inside the `catch` still finds processes, and the batched
force-kill retry throws — then the error propagates to the caller. -/
theorem killProcesses_raises_iff (env : KillEnv) (graceful : Bool) (rounds : Nat) :
    killProcesses env graceful rounds = KillOutcome.raised ↔
      (env.q1 ≠ [] ∧
       (graceful = true → env.gracefulThrows = true ∨ pollUntilEmpty env 0 rounds = false) ∧
       env.qForce ≠ [] ∧ env.forceThrows = true ∧ env.qCatch ≠ [] ∧ env.batchThrows = true) := by
  unfold killProcesses
  cases graceful <;> cases hg : env.gracefulThrows <;> split_ifs <;> simp_all

/-- Claim C5, counterexample: the chunk "Exiting" does not end with a line
terminator, so by the claim its trailing partial fragment must not be passed
to the classifier and must trigger no status transition; but `handleChunk`
passes it to `handleLog`, which transitions the status from `connected` to
`disconnected` and emits it. -/
theorem handleChunk_classifies_partial_fragment :
    endsWithTerm ("Exiting") = false ∧
    (handleChunk sampleOptions Status.connected ("Exiting")).1 = Status.disconnected ∧
    statusEvents (handleChunk sampleOptions Status.connected ("Exiting")).2
      = [Status.disconnected] := by decide

/-- Claim C5, amended: the supervisor splits each raw chunk strictly on line
terminators (`\r\n` or `\n`) and discards segments that are empty after
trimming, but it passes EVERY remaining segment of the chunk to the
classifier — including the trailing partial fragment of a chunk that does
not end with a line terminator; no buffering across chunks takes place, so
incomplete lines can be classified. -/
theorem handleChunk_eq_classifyChunkSpec (cfg : Options) (s : Status) (chunk : String) :
    handleChunk cfg s chunk = classifyChunkSpec cfg s chunk :=
  foldlGuard_eq_foldl_filter trimNonempty
    (fun st l =>
      let r := handleLog cfg st.1 (String.mk l)
      (r.1, st.2 ++ r.2))
    (splitLines chunk.toList) (s, [])

/-- Claim C6: on an `auth_username` event (a line matching only the
`Enter Auth Username:` pattern), if a username is configured (a nonempty
string — JavaScript truthiness of the optional field), the responder writes
exactly the username followed by a line terminator to the child's stdin and
the status is `auth_username`; with no username configured it writes nothing
and transitions to `auth_failed`.  Symmetrically for `auth_password` with
the password (stated on `handleAuth` for an arbitrary current status). -/
theorem auth_responder_contract (cfg : Options) (s : Status) (line : String)
    (hUser : includes line userPat = true)
    (h1 : includes line pushPat = false) (h2 : includes line initPat = false)
    (h3 : includes line exitingPat = false) (h5 : includes line passPat = false)
    (h6 : includes line verifPat = false) (h7 : includes line afPat = false)
    (h8 : includes line peerPat = false) (h9 : includes line sigusr1Pat = false) :
    (∀ u : String, cfg.username = some u → u ≠ "" →
      handleLog cfg s line = (Status.auth_username,
        [Act.log line, Act.set Status.auth_username, Act.emitStatus Status.auth_username,
         Act.write (u ++ "\n")])) ∧
    (truthy cfg.username = false →
      handleLog cfg s line = (Status.auth_failed,
        [Act.log line, Act.set Status.auth_username, Act.emitStatus Status.auth_username,
         Act.set Status.auth_failed, Act.emitStatus Status.auth_failed])) ∧
    (∀ (st : Status) (pw : String), cfg.password = some pw → pw ≠ "" →
      handleAuth cfg st AuthKind.password = (st, [Act.write (pw ++ "\n")])) ∧
    (∀ st : Status, truthy cfg.password = false →
      handleAuth cfg st AuthKind.password = (Status.auth_failed,
        [Act.set Status.auth_failed, Act.emitStatus Status.auth_failed])) := by
  refine ⟨?_, ?_, ?_, ?_⟩
  · intro u hu hne
    unfold handleLog handleAuth
    simp [hUser, h1, h2, h3, h5, h6, h7, h8, h9, truthy, jsStr, hu, hne]
  · intro hfail
    unfold handleLog handleAuth
    simp [hUser, h1, h2, h3, h5, h6, h7, h8, h9, hfail]
  · intro st pw hp hne
    unfold handleAuth
    simp [truthy, jsStr, hp, hne]
  · intro st hfail
    unfold handleAuth
    simp [hfail]

/-- Claim C6, witness: feeding the literal line
"2024-01-01 Enter Auth Username:" with configured username "alice" yields
the `auth_username` transition and a stdin write of "alice\n". -/
theorem auth_responder_contract_witness :
    handleLog sampleOptions Status.connecting ("2024-01-01 Enter Auth Username:")
      = (Status.auth_username,
        [Act.log ("2024-01-01 Enter Auth Username:"),
         Act.set Status.auth_username, Act.emitStatus Status.auth_username,
         Act.write ("alice\n")]) :=
  (auth_responder_contract sampleOptions Status.connecting
    ("2024-01-01 Enter Auth Username:")
    (by decide) (by decide) (by decide) (by decide) (by decide) (by decide)
    (by decide) (by decide) (by decide)).1 ("alice") rfl (by decide)

/-- Claim C7: a line containing `Successful ARP Flush on interface` and no
other pattern yields a transition to `connected` exactly when the status
immediately before the line was `reconnecting`; from every other prior
status the line yields no transition and the status is unchanged. -/
theorem arp_flush_only_from_reconnecting (cfg : Options) (s : Status) (line : String)
    (hArp : includes line arpPat = true)
    (h1 : includes line pushPat = false) (h2 : includes line initPat = false)
    (h3 : includes line exitingPat = false) (h4 : includes line userPat = false)
    (h5 : includes line passPat = false) (h6 : includes line verifPat = false)
    (h7 : includes line afPat = false) (h8 : includes line peerPat = false)
    (h9 : includes line sigusr1Pat = false) :
    (s = Status.reconnecting →
      handleLog cfg s line = (Status.connected,
        [Act.log line, Act.set Status.connected, Act.emitStatus Status.connected])) ∧
    (s ≠ Status.reconnecting → handleLog cfg s line = (s, [Act.log line])) := by
  constructor
  · intro hs
    subst hs
    unfold handleLog
    simp [hArp, h1, h2, h3, h4, h5, h6, h7, h8, h9]
  · intro hs
    unfold handleLog
    simp [hArp, h1, h2, h3, h4, h5, h6, h7, h8, h9, hs]

/-- Claim C7, witness: the ARP-flush line applied at status `reconnecting`
transitions to `connected`. -/
theorem arp_flush_only_from_reconnecting_witness :
    handleLog sampleOptions Status.reconnecting
        ("Successful ARP Flush on interface [eth0]")
      = (Status.connected,
        [Act.log ("Successful ARP Flush on interface [eth0]"),
         Act.set Status.connected, Act.emitStatus Status.connected]) :=
  (arp_flush_only_from_reconnecting sampleOptions Status.reconnecting
    ("Successful ARP Flush on interface [eth0]")
    (by decide) (by decide) (by decide) (by decide) (by decide) (by decide)
    (by decide) (by decide) (by decide) (by decide)).1 rfl

/-- Claim C8: a line containing `PUSH: Received control message` (and no
other pattern) is idempotent once connected: at status `connected` it emits
no further status event and leaves the status unchanged; at any other status
it transitions the status to `connected` with one emission. -/
theorem push_already_connected_idempotent (cfg : Options) (s : Status) (line : String)
    (hPush : includes line pushPat = true)
    (h3 : includes line exitingPat = false) (h4 : includes line userPat = false)
    (h5 : includes line passPat = false) (h6 : includes line verifPat = false)
    (h7 : includes line afPat = false) (h8 : includes line peerPat = false)
    (h9 : includes line sigusr1Pat = false) :
    (s = Status.connected → handleLog cfg s line = (Status.connected, [Act.log line])) ∧
    (s ≠ Status.connected →
      handleLog cfg s line = (Status.connected,
        [Act.log line, Act.set Status.connected, Act.emitStatus Status.connected])) := by
  constructor
  · intro hs
    subst hs
    unfold handleLog
    simp [hPush, h3, h4, h5, h6, h7, h8, h9]
  · intro hs
    unfold handleLog
    simp [hPush, h3, h4, h5, h6, h7, h8, h9, hs]

/-- Claim C8, witness: the PUSH line, processed while already `connected`,
emits nothing and leaves the status `connected`. -/
theorem push_already_connected_idempotent_witness :
    handleLog sampleOptions Status.connected
        ("PUSH: Received control message: redirect-gateway")
      = (Status.connected, [Act.log ("PUSH: Received control message: redirect-gateway")]) :=
  (push_already_connected_idempotent sampleOptions Status.connected
    ("PUSH: Received control message: redirect-gateway")
    (by decide) (by decide) (by decide) (by decide) (by decide) (by decide)
    (by decide) (by decide)).1 rfl

/-- Claim C9: every mutation of the stored status field is immediately
followed by the emission of a `status` event carrying the new value, and
every emitted `status` event's payload equals the stored status at the
moment of emission — across bootstrap, the `close`/`error` handlers installed
by `connect`, `disconnect`, log classification and auth responding. -/
theorem status_emission_consistency (cfg : Options) (s : Status) (line msg : String)
    (k : AuthKind) :
    emitConsistent s none (handleLog cfg s line).2 = true ∧
    emitConsistent s none (handleAuth cfg s k).2 = true ∧
    emitConsistent s none (disconnect s).2 = true ∧
    emitConsistent s none bootstrapStep.2 = true ∧
    emitConsistent s none onCloseStep.2 = true ∧
    emitConsistent s none (onErrorStep msg).2 = true := by
  refine ⟨?_, (handleAuth_consistent cfg s k).1, ?_, rfl, rfl, rfl⟩
  · show emitConsistent s none (classifySeq cfg s line).2 = true
    exact (foldl_preserves cfg line patternTable (s, [Act.log line]) s rfl rfl).1
  · unfold disconnect disconnectSetDisconnecting disconnectSetDisconnected
    dsimp only
    split_ifs <;> rfl

/-- Claim C10: for every (optional) username and password, the credential
file materialized by `createFromConfig` with `useAuthFile` holds
username:password on one line, while the file generated at connect time by
`createAuthFile` holds username and password on two lines; the contents
always differ, so the two file-based credential delivery paths are not
equivalent. -/
theorem auth_file_contents_differ (u p : Option String) :
    createFromConfigAuthContent u p ≠ createAuthFileContent u p := by
  unfold createFromConfigAuthContent createAuthFileContent
  intro h
  have h2 := congrArg String.data h
  simp [String.data_append] at h2

end OpenVpn
